import Mathlib

/-!
Verification of the adaptive tutoring backend core: session state,
proficiency estimation, strategy selection, retrieval and the response
orchestrator, embedded shallowly from the Python services.
-/

/-! Data model -/

/-- One conversation turn, as appended by the orchestrator: a student turn
records the level and score in effect, a teacher turn records the strategy
and the number of retrieved snippets used. -/
inductive Turn where
  | student (message : String) (proficiency_level : String) (proficiency_score : Int) : Turn
  | teacher (message : String) (teaching_strategy : String) (search_results_used : Nat) : Turn
  deriving DecidableEq

def Turn.isStudentTurn : Turn → Bool
  | Turn.student _ _ _ => true
  | _ => false

def Turn.isTeacherTurn : Turn → Bool
  | Turn.teacher _ _ _ => true
  | _ => false

/-- Session record, mirroring the dict built by SessionService.create_session
(timestamps and the free-form user_data payload are not modelled). -/
structure SessionData where
  session_id : String
  user_id : String
  conversation_history : List Turn
  difficulty_level : String
  subject : String
  proficiency_score : Int
  interaction_count : Nat
  initial_proficiency : Int
  session_status : String
  deriving DecidableEq

/-- Session record with the default values of create_session. -/
def createSessionData (sid : String) (uid : String) : SessionData :=
  { session_id := sid
    user_id := uid
    conversation_history := []
    difficulty_level := "intermediate"
    subject := "english"
    proficiency_score := 50
    interaction_count := 0
    initial_proficiency := 50
    session_status := "active" }

/-! Key-value session store, standing in for the redis client. -/

abbrev Store := List (String × SessionData)

def storeGet (st : Store) (sid : String) : Option SessionData :=
  Option.map Prod.snd (st.find? (fun p => p.1 == sid))

def storeSet (st : Store) (sid : String) (sd : SessionData) : Store :=
  (sid, sd) :: st.filter (fun p => !(p.1 == sid))

def storeDelete (st : Store) (sid : String) : Store :=
  st.filter (fun p => !(p.1 == sid))

/-! SessionService operations. -/

/-- SessionService.get_session. -/
def get_session (st : Store) (sid : String) : Option SessionData :=
  storeGet st sid

/-- SessionService.update_session: refetch, merge (callers pass the whole
record, so the merge replaces every field), write back. -/
def update_session (st : Store) (sid : String) (sd : SessionData) : Bool × Store :=
  match get_session st sid with
  | some _ => (true, storeSet st sid sd)
  | none => (false, st)

/-- SessionService.add_to_conversation: append one message and bump the
interaction counter by one. -/
def add_to_conversation (st : Store) (sid : String) (message : Turn) : Bool × Store :=
  match get_session st sid with
  | some sd =>
      update_session st sid
        { sd with
          conversation_history := sd.conversation_history ++ [message]
          interaction_count := sd.interaction_count + 1 }
  | none => (false, st)

/-- Deterministic level mapping from a score, per the section 4.2 thresholds. -/
def levelForScore (score : Int) : String :=
  if score ≥ 75 then "advanced"
  else if score ≥ 40 then "intermediate"
  else "beginner"

/-- SessionService.update_proficiency: clamp the shifted score into [0, 100]
and recompute the difficulty level from the clamped score. -/
def update_proficiency (st : Store) (sid : String) (score_change : Int) : Bool × Store :=
  match get_session st sid with
  | some sd =>
      let new_score := max 0 (min 100 (sd.proficiency_score + score_change))
      update_session st sid
        { sd with
          proficiency_score := new_score
          difficulty_level :=
            if new_score ≥ 75 then "advanced"
            else if new_score ≥ 40 then "intermediate"
            else "beginner" }
  | none => (false, st)

/-- SessionService.end_session. The two durable writes are collaborator
calls whose helpers swallow their own exceptions and report a Bool, so the
control flow is: not found gives false, otherwise always delete the live
record and return the conjunction of the two write results. -/
def end_session (st : Store) (sid : String)
    (conversation_stored : Bool) (session_summary_stored : Bool) : Bool × Store :=
  match get_session st sid with
  | some _ => (conversation_stored && session_summary_stored, storeDelete st sid)
  | none => (false, st)

/-! Proficiency estimator (TeachingService._analyze_proficiency). -/

/-- Accumulator pass behind splitWords: current holds the reversed
characters of the word being read. -/
def splitWordsAux : List Char → List Char → List String
  | current, [] => if current.isEmpty then [] else [String.mk current.reverse]
  | current, c :: rest =>
      if c.isWhitespace then
        if current.isEmpty then splitWordsAux [] rest
        else String.mk current.reverse :: splitWordsAux [] rest
      else splitWordsAux (c :: current) rest

/-- Python str.split with no argument: split on whitespace runs, dropping
empty pieces. -/
def splitWords (message : String) : List String :=
  splitWordsAux [] message.data

/-- Python str.lower, on the character list to keep it computable by the
kernel. -/
def lowerChars (cs : List Char) : List Char :=
  cs.map Char.toLower

def isPunctChar (c : Char) : Bool :=
  c == '.' || c == ',' || c == '!' || c == '?'

/-- Python str.strip with the punctuation set, dropping the characters from
both ends. -/
def stripPunct (w : String) : String :=
  String.mk (((w.data.dropWhile isPunctChar).reverse.dropWhile isPunctChar).reverse)

def normalizeWord (w : String) : String :=
  stripPunct (String.mk (lowerChars w.data))

def charCount (message : String) (c : Char) : Nat :=
  message.data.count c

/-- The complexity_indicators dict of _analyze_proficiency. -/
structure ComplexityIndicators where
  vocabulary_diversity : ℚ
  average_word_length : ℚ
  sentence_count : Nat
  sentence_length : ℚ
  grammar_complexity : Nat
  question_complexity : Nat
  deriving DecidableEq

def computeIndicators (message : String) : ComplexityIndicators :=
  let words := splitWords message
  let uniqueWords := (words.map normalizeWord).dedup
  let terminals := charCount message '.' + charCount message '!' + charCount message '?'
  { vocabulary_diversity :=
      if words.length = 0 then 0 else (uniqueWords.length : ℚ) / (words.length : ℚ)
    average_word_length :=
      if words.length = 0 then 0 else ((words.map String.length).sum : ℚ) / (words.length : ℚ)
    sentence_count := terminals + 1
    sentence_length := (words.length : ℚ) / ((max 1 (terminals + 1) : Nat) : ℚ)
    grammar_complexity := charCount message ',' + charCount message ';' + charCount message ':'
    question_complexity := charCount message '?' }

structure ProficiencyAnalysis where
  score_change : Int
  complexity_indicators : ComplexityIndicators
  deriving DecidableEq

/-- TeachingService._analyze_proficiency. The source reads the current
score out of the session dict but no scoring rule uses it; the parameter is
kept to mirror the source interface. -/
def analyze_proficiency (message : String) (current_level : String)
    (current_score : Int) : ProficiencyAnalysis :=
  let ci := computeIndicators message
  let words := splitWords message
  { score_change :=
      if ci.vocabulary_diversity > 0.8 ∧ ci.average_word_length > 5 then
        (if current_level = "beginner" then 5
         else if current_level = "intermediate" then 3
         else 0)
      else if ci.sentence_length > 10 ∧ current_level = "beginner" then 3
      else if ci.sentence_length < 3 ∧ current_level = "advanced" then -2
      else if words.length < 3 ∧ (current_level = "intermediate" ∨ current_level = "advanced") then -1
      else 0
    complexity_indicators := ci }

/-! Strategy selection (the branch ladder of
TeachingService._generate_adaptive_response). -/

/-- Substring occurrence test on character lists. -/
def listHasInfix (pat : List Char) : List Char → Bool
  | [] => pat.isEmpty
  | c :: rest => pat.isPrefixOf (c :: rest) || listHasInfix pat rest

/-- Python membership test: any keyword occurring as a substring of the
lower-cased message. -/
def containsAnyKeyword (message : String) (keywords : List String) : Bool :=
  keywords.any (fun w => listHasInfix w.data (lowerChars message.data))

def select_strategy (interaction_count : Nat) (message : String) : String :=
  if interaction_count < 3 then "assessment"
  else if containsAnyKeyword message [ "test", "quiz", "exam", "practice" ] then "test_prep"
  else if message.data.contains '?' ||
      containsAnyKeyword message [ "what", "how", "why", "when", "where" ] then "concept_teaching"
  else if containsAnyKeyword message [ "bye", "goodbye", "end", "finish", "stop", "done" ] then "session_ending"
  else "general_teaching"

/-! Retrieval engine (VectorService.hybrid_search). -/

/-- One stored content row of the documents table. -/
structure DocRecord where
  content : String
  metadata : String
  subject : String
  difficulty_level : String
  content_type : String
  embedding : List ℚ
  deriving DecidableEq

/-- One search result as built by hybrid_search. -/
structure Snippet where
  content : String
  metadata : String
  score : ℚ
  deriving DecidableEq

structure MetadataFilters where
  subject : Option String
  difficulty_level : Option String
  content_type : Option String
  deriving DecidableEq

def matchesFilters (f : MetadataFilters) (d : DocRecord) : Bool :=
  (match f.subject with
   | some v => d.subject == v
   | none => true) &&
  (match f.difficulty_level with
   | some v => d.difficulty_level == v
   | none => true) &&
  (match f.content_type with
   | some v => d.content_type == v
   | none => true)

/-- Stable descending insertion by score: an element goes before the first
strictly smaller score, after equal ones already placed later in the input. -/
def insertByScoreDesc (x : Snippet) : List Snippet → List Snippet
  | [] => [x]
  | y :: ys => if x.score ≥ y.score then x :: y :: ys else y :: insertByScoreDesc x ys

/-- Python sorted with reverse true: the stable descending order by score. -/
def sortByScoreDesc : List Snippet → List Snippet
  | [] => []
  | x :: xs => insertByScoreDesc x (sortByScoreDesc xs)

/-- VectorService.hybrid_search. The embedding call and the content-store
query are collaborator calls that may raise; any raised error lands in the
except branch, which returns the empty list. On the success path the source
assigns the constant placeholder score 0.8 to every filtered row and never
touches the embeddings. -/
def hybrid_search (embed_result : Except String (List ℚ))
    (docs_result : Except String (List DocRecord))
    (filters : MetadataFilters) (lim : Nat) : List Snippet :=
  match embed_result with
  | Except.error _ => []
  | Except.ok _query_embedding =>
    match docs_result with
    | Except.error _ => []
    | Except.ok docs =>
        sortByScoreDesc
          (((docs.filter (matchesFilters filters)).take lim).map
            (fun d => { content := d.content, metadata := d.metadata, score := (0.8 : ℚ) }))

/-- TeachingService._build_context. -/
def build_context (search_results : List Snippet) : String :=
  if search_results.isEmpty then "No specific context found."
  else String.intercalate "\n"
    ((search_results.take 3).map (fun r => "- " ++ r.content.take 200 ++ "..."))

/-- Cosine-similarity numerator, used to compare the ranking the source
produces with the ranking the embeddings call for (on unit vectors the dot
product is the cosine similarity). -/
def dotProduct : List ℚ → List ℚ → ℚ
  | a :: as, b :: bs => a * b + dotProduct as bs
  | _, _ => 0

/-! Response orchestrator (TeachingService.process_student_message). -/

inductive ProcessOutcome where
  | failure (message : String) : ProcessOutcome
  | ok (response : String) (difficulty_level : String) (proficiency_score : Int)
       (teaching_strategy : String) (interaction_count : Nat) : ProcessOutcome
  deriving DecidableEq

def ProcessOutcome.isFailure : ProcessOutcome → Bool
  | ProcessOutcome.failure _ => true
  | _ => false

/-- Lines 33 to 38 of process_student_message: apply a nonzero proficiency
delta and refetch the session record, otherwise keep the one in hand. -/
def applyAnalysis (st : Store) (sid : String) (sd0 : SessionData)
    (score_change : Int) : Store × Option SessionData :=
  if score_change != 0 then
    ((update_proficiency st sid score_change).2,
     get_session (update_proficiency st sid score_change).2 sid)
  else (st, some sd0)

/-- TeachingService.process_student_message. External effects enter as
arguments: search_results is the outcome of the retrieval call (already a
soft failure as an empty list when it failed) and gen is the outcome of the
generation call, none when the model raised. Any exception on the way is
caught by the outer handler, which returns the failure dict. -/
def process_student_message (st : Store) (sid : String) (message : String)
    (search_results : List Snippet) (gen : Option String) : ProcessOutcome × Store :=
  match get_session st sid with
  | none => (ProcessOutcome.failure "Invalid session", st)
  | some sd0 =>
      if sd0.session_status != "active" then
        (ProcessOutcome.failure "Session is not active", st)
      else
        match applyAnalysis st sid sd0
            (analyze_proficiency message sd0.difficulty_level sd0.proficiency_score).score_change with
        | (st1, none) => (ProcessOutcome.failure "Failed to process message", st1)
        | (st1, some sd) =>
            match gen with
            | none => (ProcessOutcome.failure "Failed to process message", st1)
            | some content =>
                (ProcessOutcome.ok content sd.difficulty_level sd.proficiency_score
                   (select_strategy sd.interaction_count message) sd.interaction_count,
                 (add_to_conversation
                   (add_to_conversation st1 sid
                     (Turn.student message sd.difficulty_level sd.proficiency_score)).2
                   sid
                   (Turn.teacher content (select_strategy sd.interaction_count message)
                     search_results.length)).2)

/-! Concrete values used by witnesses and counterexamples. -/

def demoSid : String := "s"

def demoSession : SessionData := createSessionData demoSid "u"

def demoStore : Store := [(demoSid, demoSession)]

def demoMessage : String := "hi there my friends"

def demoReply : String := "Nice to meet you."

def pastTenseQuestion : String := "Can you explain the past tense?"

def noFilters : MetadataFilters :=
  { subject := none, difficulty_level := none, content_type := none }

def cexQueryEmbedding : List ℚ := [1, 0]

def cexDocA : DocRecord :=
  { content := "orthogonal item", metadata := "m1", subject := "english"
    difficulty_level := "beginner", content_type := "lesson", embedding := [0, 1] }

def cexDocB : DocRecord :=
  { content := "aligned item", metadata := "m2", subject := "english"
    difficulty_level := "beginner", content_type := "lesson", embedding := [1, 0] }

/-! Store lemmas. -/

lemma storeGet_storeSet_self (st : Store) (sid : String) (sd : SessionData) :
    storeGet (storeSet st sid sd) sid = some sd := by
  simp [storeGet, storeSet, List.find?_cons_of_pos]

lemma get_session_storeSet_self (st : Store) (sid : String) (sd : SessionData) :
    get_session (storeSet st sid sd) sid = some sd :=
  storeGet_storeSet_self st sid sd

lemma get_session_storeDelete_self (st : Store) (sid : String) :
    get_session (storeDelete st sid) sid = none := by
  unfold get_session storeGet storeDelete
  rw [List.find?_eq_none.mpr]
  · rfl
  · intro x hx
    rcases List.mem_filter.mp hx with ⟨-, hpred⟩
    simpa using hpred

lemma update_proficiency_snd (st : Store) (sid : String) (sd : SessionData)
    (c : Int) (h : get_session st sid = some sd) :
    (update_proficiency st sid c).2 =
      storeSet st sid
        { sd with
          proficiency_score := max 0 (min 100 (sd.proficiency_score + c))
          difficulty_level := levelForScore (max 0 (min 100 (sd.proficiency_score + c))) } := by
  unfold update_proficiency update_session
  rw [h]
  rfl

lemma add_to_conversation_snd (st : Store) (sid : String) (sd : SessionData)
    (t : Turn) (h : get_session st sid = some sd) :
    (add_to_conversation st sid t).2 =
      storeSet st sid
        { sd with
          conversation_history := sd.conversation_history ++ [t]
          interaction_count := sd.interaction_count + 1 } := by
  unfold add_to_conversation update_session
  rw [h]

lemma applyAnalysis_spec (st : Store) (sid : String) (sd0 : SessionData)
    (c : Int) (h : get_session st sid = some sd0) :
    ∃ st1 sd1, applyAnalysis st sid sd0 c = (st1, some sd1) ∧
      get_session st1 sid = some sd1 ∧
      sd1.conversation_history = sd0.conversation_history ∧
      sd1.interaction_count = sd0.interaction_count ∧
      sd1.session_status = sd0.session_status := by
  unfold applyAnalysis
  by_cases hc : (c != 0) = true
  · rw [if_pos hc]
    rw [update_proficiency_snd st sid sd0 c h, get_session_storeSet_self]
    exact ⟨_, _, rfl, get_session_storeSet_self _ _ _, rfl, rfl, rfl⟩
  · rw [if_neg hc]
    exact ⟨st, sd0, rfl, h, rfl, rfl, rfl⟩

/-- C1: every update_proficiency mutation persists a score clamped to
[0, 100] together with the difficulty level obtained from that clamped score
by the fixed thresholds, and the threshold map sends every score to exactly
one of the three levels. -/
theorem update_proficiency_clamps_and_syncs_level
    (st : Store) (sid : String) (sd : SessionData) (c : Int)
    (h : get_session st sid = some sd) :
    (∃ sd1, get_session (update_proficiency st sid c).2 sid = some sd1 ∧
       sd1.proficiency_score = max 0 (min 100 (sd.proficiency_score + c)) ∧
       0 ≤ sd1.proficiency_score ∧ sd1.proficiency_score ≤ 100 ∧
       sd1.difficulty_level = levelForScore sd1.proficiency_score) ∧
    (∀ s : Int,
       (levelForScore s = "advanced" ↔ 75 ≤ s) ∧
       (levelForScore s = "intermediate" ↔ 40 ≤ s ∧ s < 75) ∧
       (levelForScore s = "beginner" ↔ s < 40) ∧
       (levelForScore s = "advanced" ∨ levelForScore s = "intermediate" ∨
         levelForScore s = "beginner")) := by
  constructor
  · rw [update_proficiency_snd st sid sd c h]
    refine ⟨_, get_session_storeSet_self _ _ _, rfl, ?_, ?_, rfl⟩
    · exact le_max_left 0 _
    · exact max_le (by norm_num) (min_le_left _ _)
  · intro s
    unfold levelForScore
    split_ifs with h1 h2
    · exact ⟨iff_of_true rfl h1,
        iff_of_false (by decide) (by omega),
        iff_of_false (by decide) (by omega),
        Or.inl rfl⟩
    · exact ⟨iff_of_false (by decide) (by omega),
        iff_of_true rfl (by omega),
        iff_of_false (by decide) (by omega),
        Or.inr (Or.inl rfl)⟩
    · exact ⟨iff_of_false (by decide) (by omega),
        iff_of_false (by decide) (by omega),
        iff_of_true rfl (by omega),
        Or.inr (Or.inr rfl)⟩

/-- C1 witness: the theorem applied to the demo store with a delta of 60. -/
theorem update_proficiency_clamps_and_syncs_level_witness :
    (∃ sd1, get_session (update_proficiency demoStore demoSid 60).2 demoSid = some sd1 ∧
       sd1.proficiency_score = max 0 (min 100 (demoSession.proficiency_score + 60)) ∧
       0 ≤ sd1.proficiency_score ∧ sd1.proficiency_score ≤ 100 ∧
       sd1.difficulty_level = levelForScore sd1.proficiency_score) ∧
    (∀ s : Int,
       (levelForScore s = "advanced" ↔ 75 ≤ s) ∧
       (levelForScore s = "intermediate" ↔ 40 ≤ s ∧ s < 75) ∧
       (levelForScore s = "beginner" ↔ s < 40) ∧
       (levelForScore s = "advanced" ∨ levelForScore s = "intermediate" ∨
         levelForScore s = "beginner")) :=
  update_proficiency_clamps_and_syncs_level demoStore demoSid demoSession 60 rfl

unseal Rat.ofScientific Rat.mul Rat.inv Rat.add Rat.sub in
/-- C2 counterexample: on the empty utterance at current level advanced the
estimator returns -2, not 0, because the mean sentence length 0 falls under
the short-sentence rule. -/
theorem analyze_proficiency_empty_advanced_counterexample :
    (analyze_proficiency "" "advanced" 50).score_change = -2 ∧
    ¬ (analyze_proficiency "" "advanced" 50).score_change = 0 := by
  decide

unseal Rat.ofScientific Rat.mul Rat.inv Rat.add Rat.sub in
/-- C2 amended: for the empty utterance the proficiency delta depends on the
current level: 0 at beginner, -1 at intermediate (the short-message rule),
-2 at advanced (the short-sentence rule); it never depends on the current
score. -/
theorem analyze_proficiency_empty_by_level (s : Int) :
    (analyze_proficiency "" "beginner" s).score_change = 0 ∧
    (analyze_proficiency "" "intermediate" s).score_change = -1 ∧
    (analyze_proficiency "" "advanced" s).score_change = -2 :=
  ⟨rfl, rfl, rfl⟩

/-- C10: the score delta produced by the estimator is independent of the
current proficiency score: the source binds the current score but no
scoring rule reads it. -/
theorem score_change_independent_of_current_score
    (message current_level : String) (s1 s2 : Int) :
    (analyze_proficiency message current_level s1).score_change =
      (analyze_proficiency message current_level s2).score_change :=
  rfl

/-- C5: strategy selection is a pure function of the interaction count and
the utterance; any count below 3 yields assessment whatever the utterance,
and at count at least 3 the past-tense question yields concept_teaching
because the question rule fires before the fallback. -/
theorem strategy_selection_priority :
    (∀ (ic : Nat) (message : String), ic < 3 → select_strategy ic message = "assessment") ∧
    (∀ ic : Nat, 3 ≤ ic → select_strategy ic pastTenseQuestion = "concept_teaching") := by
  constructor
  · intro ic message h
    unfold select_strategy
    rw [if_pos h]
  · intro ic h
    unfold select_strategy
    rw [if_neg (by omega)]
    decide

/-- C5 witness: the theorem applied at interaction counts 0 and 3. -/
theorem strategy_selection_priority_witness :
    select_strategy 0 pastTenseQuestion = "assessment" ∧
    select_strategy 3 pastTenseQuestion = "concept_teaching" :=
  ⟨strategy_selection_priority.1 0 pastTenseQuestion (by omega),
   strategy_selection_priority.2 3 (by omega)⟩

lemma end_session_none (st : Store) (sid : String) (c s : Bool)
    (h : get_session st sid = none) :
    end_session st sid c s = (false, st) := by
  unfold end_session
  rw [h]

lemma end_session_some_fst (st : Store) (sid : String) (sd : SessionData) (c s : Bool)
    (h : get_session st sid = some sd) :
    (end_session st sid c s).1 = (c && s) := by
  unfold end_session
  rw [h]

lemma end_session_some_snd (st : Store) (sid : String) (sd : SessionData) (c s : Bool)
    (h : get_session st sid = some sd) :
    (end_session st sid c s).2 = storeDelete st sid := by
  unfold end_session
  rw [h]

/-- C8: end_session on an unknown session returns the not-found outcome
(false) without touching the store, and a second end_session against a
session already ended by a first call returns the not-found outcome and
changes nothing further. -/
theorem end_session_not_found_and_idempotent :
    (∀ (st : Store) (sid : String) (c s : Bool), get_session st sid = none →
       end_session st sid c s = (false, st)) ∧
    (∀ (st : Store) (sid : String) (sd : SessionData) (c1 s1 c2 s2 : Bool),
       get_session st sid = some sd →
       end_session (end_session st sid c1 s1).2 sid c2 s2 =
         (false, (end_session st sid c1 s1).2)) := by
  constructor
  · exact end_session_none
  · intro st sid sd c1 s1 c2 s2 h
    have h2 : get_session (end_session st sid c1 s1).2 sid = none := by
      rw [end_session_some_snd st sid sd c1 s1 h]
      exact get_session_storeDelete_self st sid
    exact end_session_none _ _ _ _ h2

/-- C8 witness: the theorem applied to the empty store and to the demo
store. -/
theorem end_session_not_found_and_idempotent_witness :
    end_session [] demoSid true true = (false, []) ∧
    end_session (end_session demoStore demoSid true true).2 demoSid true true =
      (false, (end_session demoStore demoSid true true).2) :=
  ⟨end_session_not_found_and_idempotent.1 [] demoSid true true rfl,
   end_session_not_found_and_idempotent.2 demoStore demoSid demoSession true true true true rfl⟩

/-- C4 counterexample: with a failing conversation write, end_session on the
demo store surfaces the failure, yet the live record is already gone, so a
retry cannot find the live session as the claim requires. -/
theorem end_session_write_failure_counterexample :
    (end_session demoStore demoSid false true).1 = false ∧
    get_session (end_session demoStore demoSid false true).2 demoSid = none :=
  ⟨rfl, rfl⟩

/-- C4 amended: when a durable write fails during end_session the call does
surface an overall failure, but only after the live record has been deleted,
so a retry of end finds no live session and reports not-found. -/
theorem end_session_write_failure_surfaces_after_delete
    (st : Store) (sid : String) (sd : SessionData) (conv summ : Bool)
    (h : get_session st sid = some sd) (hfail : conv = false ∨ summ = false) :
    (end_session st sid conv summ).1 = false ∧
    get_session (end_session st sid conv summ).2 sid = none := by
  constructor
  · rw [end_session_some_fst st sid sd conv summ h]
    rcases hfail with hf | hf <;> rw [hf] <;> simp
  · rw [end_session_some_snd st sid sd conv summ h]
    exact get_session_storeDelete_self st sid

/-- C4 amended witness: the theorem applied to the demo store with a failing
summary write. -/
theorem end_session_write_failure_surfaces_after_delete_witness :
    (end_session demoStore demoSid true false).1 = false ∧
    get_session (end_session demoStore demoSid true false).2 demoSid = none :=
  end_session_write_failure_surfaces_after_delete demoStore demoSid demoSession true false
    rfl (Or.inr rfl)

unseal Rat.ofScientific Rat.mul Rat.inv Rat.add Rat.sub in
/-- C6: on a concrete store the search result carries the constant
placeholder score 0.8 for every row and keeps insertion order, although the
query embedding has strictly larger similarity with the second document, so
the ranking key is not the cosine similarity the claim requires. -/
theorem hybrid_search_constant_score_counterexample :
    hybrid_search (Except.ok cexQueryEmbedding) (Except.ok [cexDocA, cexDocB]) noFilters 5 =
      [ { content := cexDocA.content, metadata := cexDocA.metadata, score := (0.8 : ℚ) },
        { content := cexDocB.content, metadata := cexDocB.metadata, score := (0.8 : ℚ) } ] ∧
    dotProduct cexQueryEmbedding cexDocA.embedding <
      dotProduct cexQueryEmbedding cexDocB.embedding := by
  decide

/-- C9: retrieval degrades softly: an embedding failure, a content-store
failure, and a filter set matching no stored item all yield the empty
snippet sequence rather than an error, and the prompt builder turns the
empty sequence into its no-context placeholder so generation proceeds on
conversation alone. -/
theorem hybrid_search_soft_failures_empty :
    (∀ (e : String) (docs_result : Except String (List DocRecord))
       (f : MetadataFilters) (lim : Nat),
       hybrid_search (Except.error e) docs_result f lim = []) ∧
    (∀ (qe : List ℚ) (e : String) (f : MetadataFilters) (lim : Nat),
       hybrid_search (Except.ok qe) (Except.error e) f lim = []) ∧
    (∀ (qe : List ℚ) (docs : List DocRecord) (f : MetadataFilters) (lim : Nat),
       docs.filter (matchesFilters f) = [] →
       hybrid_search (Except.ok qe) (Except.ok docs) f lim = []) ∧
    build_context [] = "No specific context found." := by
  refine ⟨fun e dr f lim => rfl, fun qe e f lim => rfl, fun qe docs f lim h => ?_, rfl⟩
  have hred : hybrid_search (Except.ok qe) (Except.ok docs) f lim =
      sortByScoreDesc (((docs.filter (matchesFilters f)).take lim).map
        (fun d => { content := d.content, metadata := d.metadata, score := (0.8 : ℚ) })) := rfl
  rw [hred, h]
  simp [sortByScoreDesc]

/-- C9 witness: the theorem applied at an embedding failure, a store
failure, and a filter matching nothing in a one-document store. -/
theorem hybrid_search_soft_failures_empty_witness :
    hybrid_search (Except.error "embedding failure") (Except.ok []) noFilters 5 = [] ∧
    hybrid_search (Except.ok []) (Except.error "content store failure") noFilters 5 = [] ∧
    hybrid_search (Except.ok []) (Except.ok [cexDocA])
      { subject := some "math", difficulty_level := none, content_type := none } 5 = [] ∧
    build_context [] = "No specific context found." :=
  ⟨hybrid_search_soft_failures_empty.1 "embedding failure" (Except.ok []) noFilters 5,
   hybrid_search_soft_failures_empty.2.1 [] "content store failure" noFilters 5,
   hybrid_search_soft_failures_empty.2.2.1 [] [cexDocA]
     { subject := some "math", difficulty_level := none, content_type := none } 5 (by decide),
   hybrid_search_soft_failures_empty.2.2.2⟩

/-- C7: when the generation collaborator fails, the orchestrator appends
neither the student turn nor the teacher turn (whatever the session state)
and the caller receives the typed failure outcome rather than a crash. -/
theorem generation_failure_appends_nothing (st : Store) (sid : String)
    (message : String) (search_results : List Snippet) :
    (process_student_message st sid message search_results none).1.isFailure = true ∧
    Option.map SessionData.conversation_history
        (get_session (process_student_message st sid message search_results none).2 sid) =
      Option.map SessionData.conversation_history (get_session st sid) := by
  cases h : get_session st sid with
  | none =>
      have hred : process_student_message st sid message search_results none =
          (ProcessOutcome.failure "Invalid session", st) := by
        simp [process_student_message, h]
      rw [hred]
      exact ⟨rfl, by simp [h]⟩
  | some sd0 =>
      by_cases hact : sd0.session_status = "active"
      · obtain ⟨st1, sd1, hA, hget1, hhist, hcount, hstatus⟩ :=
          applyAnalysis_spec st sid sd0
            (analyze_proficiency message sd0.difficulty_level sd0.proficiency_score).score_change h
        have hbne : (sd0.session_status != "active") = false := by
          simp [hact]
        have hred : process_student_message st sid message search_results none =
            (ProcessOutcome.failure "Failed to process message", st1) := by
          simp [process_student_message, h, hbne, hA]
        rw [hred]
        refine ⟨rfl, ?_⟩
        rw [show (ProcessOutcome.failure "Failed to process message", st1).2 = st1 from rfl,
          hget1]
        simp [hhist]
      · have hbne : (sd0.session_status != "active") = true := bne_iff_ne.mpr hact
        have hred : process_student_message st sid message search_results none =
            (ProcessOutcome.failure "Session is not active", st) := by
          simp [process_student_message, h, hbne]
        rw [hred]
        exact ⟨rfl, by simp [h]⟩

unseal Rat.ofScientific Rat.mul Rat.inv Rat.add Rat.sub in
/-- C3 counterexample: one successful submission against the fresh demo
session takes the stored interaction counter from 0 to 2, because the
orchestrator calls add_to_conversation once per appended turn and each call
increments the counter, so the counter does not increment exactly once per
submission. -/
theorem process_message_double_count_counterexample :
    demoSession.interaction_count = 0 ∧
    Option.map SessionData.interaction_count
        (get_session (process_student_message demoStore demoSid demoMessage []
          (some demoReply)).2 demoSid) = some 2 ∧
    ¬ Option.map SessionData.interaction_count
        (get_session (process_student_message demoStore demoSid demoMessage []
          (some demoReply)).2 demoSid) = some 1 := by
  decide

/-- C3 amended: one successful submission appends exactly two turns, first a
student turn then a teacher turn, and increments the interaction counter
exactly twice (once per appended turn). -/
theorem process_message_appends_two_turns_and_counts_twice
    (st : Store) (sid : String) (message content : String)
    (search_results : List Snippet) (sd0 : SessionData)
    (h : get_session st sid = some sd0) (hact : sd0.session_status = "active") :
    ∃ sd2 t1 t2,
      get_session (process_student_message st sid message search_results (some content)).2 sid
        = some sd2 ∧
      sd2.conversation_history = sd0.conversation_history ++ [t1, t2] ∧
      t1.isStudentTurn = true ∧ t2.isTeacherTurn = true ∧
      sd2.interaction_count = sd0.interaction_count + 2 := by
  obtain ⟨st1, sd1, hA, hget1, hhist, hcount, hstatus⟩ :=
    applyAnalysis_spec st sid sd0
      (analyze_proficiency message sd0.difficulty_level sd0.proficiency_score).score_change h
  have hbne : (sd0.session_status != "active") = false := by
    simp [hact]
  have hred : (process_student_message st sid message search_results (some content)).2 =
      (add_to_conversation
        (add_to_conversation st1 sid
          (Turn.student message sd1.difficulty_level sd1.proficiency_score)).2
        sid
        (Turn.teacher content (select_strategy sd1.interaction_count message)
          search_results.length)).2 := by
    simp [process_student_message, h, hbne, hA]
  have h2 := add_to_conversation_snd st1 sid sd1
    (Turn.student message sd1.difficulty_level sd1.proficiency_score) hget1
  have hget2 : get_session (add_to_conversation st1 sid
      (Turn.student message sd1.difficulty_level sd1.proficiency_score)).2 sid =
      some { sd1 with
        conversation_history := sd1.conversation_history ++
          [Turn.student message sd1.difficulty_level sd1.proficiency_score]
        interaction_count := sd1.interaction_count + 1 } := by
    rw [h2]
    exact get_session_storeSet_self _ _ _
  have h3 := add_to_conversation_snd _ sid _
    (Turn.teacher content (select_strategy sd1.interaction_count message)
      search_results.length) hget2
  rw [hred, h3]
  refine ⟨_, Turn.student message sd1.difficulty_level sd1.proficiency_score,
    Turn.teacher content (select_strategy sd1.interaction_count message)
      search_results.length,
    get_session_storeSet_self _ _ _, ?_, rfl, rfl, ?_⟩
  · simp [hhist, List.append_assoc]
  · simp [hcount]

/-- C3 amended witness: the theorem applied to the fresh demo session. -/
theorem process_message_appends_two_turns_and_counts_twice_witness :
    ∃ sd2 t1 t2,
      get_session (process_student_message demoStore demoSid demoMessage []
        (some demoReply)).2 demoSid = some sd2 ∧
      sd2.conversation_history = demoSession.conversation_history ++ [t1, t2] ∧
      t1.isStudentTurn = true ∧ t2.isTeacherTurn = true ∧
      sd2.interaction_count = demoSession.interaction_count + 2 :=
  process_message_appends_two_turns_and_counts_twice demoStore demoSid demoMessage demoReply
    [] demoSession rfl rfl
